import Mathlib

/-!
Verification development for the StreamBot playback-queue and streaming
state machine.  The TypeScript sources are shallowly embedded: pure
functions become Lean functions, the effectful orchestrator becomes an
explicit state-passing step function whose external collaborators
(voice sink, yt-dlp, ffmpeg, filesystem) are injected through an
environment record, and user-visible notifications become an event list.
JavaScript strings are modelled as Lean `String`s, with the small set of
string operations the sources use (`includes`, `startsWith`, `split`)
re-implemented over `List Char` so that they are kernel-reducible.
JavaScript `||` on possibly-empty strings is modelled through
`Option String` together with emptiness tests, and `NaN` produced by
`Number(...)` is modelled as `Option.none`.
-/

namespace StreamBot

/-- Helper: `listPrefixOf pre l` is true when `pre` is a prefix of `l`
(character-list version of `String.startsWith`). -/
def listPrefixOf : List Char → List Char → Bool
  | [], _ => true
  | _ :: _, [] => false
  | a :: as, b :: bs => a = b && listPrefixOf as bs

/-- Helper: `listContains needle hay` is true when `needle` occurs contiguously in
`hay` (character-list version of JavaScript `String.prototype.includes`). -/
def listContains (needle : List Char) : List Char → Bool
  | [] => needle.isEmpty
  | c :: cs => listPrefixOf needle (c :: cs) || listContains needle cs

/-- JavaScript `s.includes(sub)`. -/
def strIncludes (s sub : String) : Bool := listContains sub.data s.data

/-- JavaScript `s.startsWith(pre)`. -/
def strStartsWith (s pre : String) : Bool := listPrefixOf pre.data s.data

/-- JavaScript `s.split(sep)` for a one-character separator. -/
def splitOnChar (sep : Char) : List Char → List (List Char)
  | [] => [[]]
  | c :: cs =>
    let rest := splitOnChar sep cs
    if c = sep then [] :: rest
    else match rest with
      | [] => [[c]]
      | r :: rs => (c :: r) :: rs

/-- Decimal digit-string parser used to model JavaScript `Number(...)` on
the integral strings that appear in frame-rate fractions. -/
def charsToNat? (l : List Char) : Option Nat :=
  if l.isEmpty then none
  else l.foldl (fun acc c => match acc with
    | none => none
    | some n => if c.isDigit then some (n * 10 + (c.toNat - 48)) else none) (some 0)

/-- JavaScript `Number(s)` restricted to the inputs the sources meet:
`Number('') = 0`, digit strings parse, anything else is `NaN` (modelled as
`none`). -/
def jsNumber (l : List Char) : Option ℚ :=
  if l.isEmpty then some 0 else (charsToNat? l).map (fun n => (n : ℚ))

/-- JavaScript truthiness of a string value: present and non-empty. -/
def jsTruthyStr (s : Option String) : Bool :=
  match s with
  | none => false
  | some t => ¬t.data.isEmpty

/-- JavaScript `a || b` for optional strings (empty string is falsy). -/
def jsOrStr (a : Option String) (b : String) : String :=
  match a with
  | none => b
  | some s => if s.data.isEmpty then b else s

/-- JavaScript `a || b` where both sides are optional strings. -/
def jsOrStrOpt (a b : Option String) : Option String :=
  if jsTruthyStr a then a else b

/-- The segment after the last `/` (JavaScript `pathname.split('/').pop()`),
as used for filename-derived titles. -/
def afterLastSlash (l : List Char) : List Char :=
  match (splitOnChar '/' l).getLast? with
  | some seg => seg
  | none => l

/-- JavaScript `filename.replace(/\.[^/.]+$/, "")`: strips a final
extension consisting of a dot followed by one or more characters that are
neither dots nor slashes. -/
def stripLastExt (l : List Char) : List Char :=
  let rev := l.reverse
  let ext := rev.takeWhile (fun c => c ≠ '.' && c ≠ '/')
  match rev.drop ext.length with
  | '.' :: rest => if ext.isEmpty then l else rest.reverse
  | _ => l

/-- Scheme characters allowed after the initial letter of a URL scheme. -/
def isSchemeChar (c : Char) : Bool := c.isAlphanum || c = '+' || c = '-' || c = '.'

/-- Helper for URL-scheme detection: scans scheme characters until a `:`. -/
def hasSchemeColon : List Char → Bool
  | [] => false
  | c :: cs => if c = ':' then true else isSchemeChar c && hasSchemeColon cs

/-- Modelled from the spec: "anything parseable as an absolute URL" — the
predicate the specification uses for resolver strategy 5, phrased as having
a leading URL scheme (letter, scheme characters, then `:`), the condition
under which JavaScript `new URL(input)` succeeds on an absolute input.
This definition follows the spec's words, for comparison with the code's
`isValidUrl`. -/
def specParseableAsAbsoluteUrl (url : String) : Bool :=
  match url.data with
  | [] => false
  | c :: rest => c.isAlpha && hasSchemeColon rest

/-- Model of `new URL(url).pathname`: `none` when URL parsing throws.  After
`scheme://authority`, the pathname runs from the first `/` up to a query or
fragment; a missing path is `/`.  Non-`//` schemes keep the remainder as
an opaque path, which suffices for the inputs the resolver meets. -/
def urlPathname (url : List Char) : Option (List Char) :=
  match url with
  | [] => none
  | c :: rest =>
    if c.isAlpha && hasSchemeColon rest then
      let afterColon := (rest.dropWhile (fun d => d ≠ ':')).drop 1
      match afterColon with
      | '/' :: '/' :: tail =>
        let path := (tail.dropWhile (fun d => d ≠ '/')).takeWhile
          (fun d => d ≠ '?' && d ≠ '#')
        some (if path.isEmpty then ['/'] else path)
      | other => some (other.takeWhile (fun d => d ≠ '?' && d ≠ '#'))
    else none

/-! ## Data model (src/types, resolved media sources) -/

/-- The `mediaType` enum from the data model: youtube | twitch | local |
generic url. -/
inductive MediaType
  | youtube
  | twitch
  | local
  | url
  deriving DecidableEq, Repr

/-- Transport headers (`Record<string, string>`). -/
abbrev Headers := List (String × String)

/-- Resolved, playable descriptor produced by the resolver
(`{url, title, type, isLive?, headers?}` in `media.ts`). -/
structure MediaSource where
  url : String
  title : String
  type : MediaType
  isLive : Bool := false
  headers : Option Headers := none
  deriving DecidableEq, Repr

/-- One entry of `metadata.formats` as consumed by
`_resolveDirectUrlSource`. -/
structure YtFormat where
  url : Option String := none
  ext : Option String := none
  vcodec : Option String := none
  acodec : Option String := none
  height : Option Nat := none
  deriving DecidableEq, Repr

/-- The slice of the yt-dlp JSON dump `_resolveDirectUrlSource` reads. -/
structure YtMetadata where
  title : Option String := none
  formats : List YtFormat := []
  deriving DecidableEq, Repr

/-- External collaborators of `MediaService` (`media.ts`).  Each strategy
body is delegated work that may fail: an `Except.error` models a raised
backend error, `.ok none` a soft "could not resolve".  `fileExists` stands
for `fs.existsSync`/`lstatSync(...).isFile()`. -/
structure Backends where
  youtube : String → Except String (Option MediaSource)
  twitch : String → Except String (Option MediaSource)
  embed : String → Except String (Option MediaSource)
  search : String → Except String (Option MediaSource)
  ytdlProbe : String → Except String YtMetadata
  fileExists : String → Bool

/-! ## Resolver (src/services/media.ts, src/utils/shared.ts) -/

/-- Model of `GeneralUtils.isValidUrl` from `shared.ts`: a domain-substring or
http-prefix check, not URL parsing. -/
def isValidUrl (input : String) : Bool :=
  strIncludes input "youtube.com/" || strIncludes input "youtu.be/" ||
  strIncludes input "twitch.tv/" || strIncludes input "cinemaos.tech/" ||
  strIncludes input "vidking.net/" ||
  strStartsWith input "http://" || strStartsWith input "https://"

/-- Model of `_resolveLocalSource`: title is `path.basename(url, path.extname(url))`
— the last path segment with its final extension stripped. -/
def resolveLocalSource (url : String) : MediaSource :=
  { url := url
    title := ⟨stripLastExt (afterLastSlash url.data)⟩
    type := MediaType.local }

/-- Sort key of `_resolveDirectUrlSource`'s format comparator: one point
each for a usable video and audio codec plus `height / 1000`. -/
def formatScore (f : YtFormat) : ℚ :=
  (if jsTruthyStr f.vcodec && f.vcodec ≠ some "none" then 1 else 0)
  + (if jsTruthyStr f.acodec && f.acodec ≠ some "none" then 1 else 0)
  + ((f.height.getD 0 : ℚ)) / 1000

/-- Model of `formats.sort(comparator)[0]` under V8's stable sort: the first
element attaining the maximal score. -/
def pickBestFormat (l : List YtFormat) : Option YtFormat :=
  l.foldl (fun acc f => match acc with
    | none => some f
    | some g => if formatScore g < formatScore f then some f else acc) none

/-- The fallback title computation of `_resolveDirectUrlSource`
(lines 286–299): filename-derived, defaulting to `"Direct URL"`.
`decodeURIComponent` is modelled as the identity. -/
def fallbackDirectUrlTitle (url : String) : String :=
  match urlPathname url.data with
  | none => "Direct URL"
  | some pathname =>
    let filename := afterLastSlash pathname
    if filename.isEmpty = false ∧ listContains ['.'] filename = true then
      ⟨stripLastExt filename⟩
    else if pathname ≠ ['/'] ∧ 1 < pathname.length then
      let seg := afterLastSlash pathname
      if seg.isEmpty = false then ⟨seg⟩ else "Direct URL"
    else "Direct URL"

/-- Model of `_resolveDirectUrlSource`: best-effort yt-dlp metadata probe; on
success with a truthy title the best non-HLS format URL is substituted,
otherwise the original URL with a filename-derived title is returned.
The probe's failure is caught inside this function. -/
def resolveDirectUrlSource (b : Backends) (url : String) : MediaSource :=
  let fallback : MediaSource :=
    { url := url, title := fallbackDirectUrlTitle url, type := MediaType.url }
  match b.ytdlProbe url with
  | Except.error _ => fallback
  | Except.ok metadata =>
    if jsTruthyStr metadata.title then
      let filtered := metadata.formats.filter
        (fun f => jsTruthyStr f.url && f.ext ≠ some "m3u8")
      let streamUrl :=
        match pickBestFormat filtered with
        | some bf => if jsTruthyStr bf.url then bf.url.getD url else url
        | none => url
      { url := streamUrl, title := metadata.title.getD "", type := MediaType.url }
    else fallback

/-- The dispatch body of `resolveMediaSource` before its `catch`: the
if/else chain of `media.ts` lines 21–44 with each strategy delegated to
its collaborator. -/
def dispatchE (b : Backends) (url : String) : Except String (Option MediaSource) :=
  if strIncludes url "youtube.com/" || strIncludes url "youtu.be/" then
    b.youtube url
  else if strIncludes url "twitch.tv/" then
    b.twitch url
  else if strIncludes url "vidsrc.cc" || strIncludes url "vidlink.pro" then
    b.embed url
  else if b.fileExists url then
    Except.ok (some (resolveLocalSource url))
  else if isValidUrl url then
    Except.ok (some (resolveDirectUrlSource b url))
  else
    b.search url

/-- Model of `MediaService.resolveMediaSource`: the dispatch wrapped in the
try/catch that converts any raised backend error into `null`. -/
def resolveMediaSource (b : Backends) (url : String) : Option MediaSource :=
  match dispatchE b url with
  | Except.ok m => m
  | Except.error _ => none

/-- The six resolution strategies, in the resolver's code order. -/
inductive Strategy
  | youtube
  | twitch
  | embed
  | localFile
  | directUrl
  | search
  deriving DecidableEq, Repr

/-- Which strategy the code's dispatch selects for an input, read off the
branch conditions of `resolveMediaSource`. -/
def strategyOf (fileExists : String → Bool) (url : String) : Strategy :=
  if strIncludes url "youtube.com/" || strIncludes url "youtu.be/" then
    Strategy.youtube
  else if strIncludes url "twitch.tv/" then Strategy.twitch
  else if strIncludes url "vidsrc.cc" || strIncludes url "vidlink.pro" then
    Strategy.embed
  else if fileExists url then Strategy.localFile
  else if isValidUrl url then Strategy.directUrl
  else Strategy.search

/-- Modelled from the spec: the dispatch order as the claim states it,
with strategy 5 triggered by "anything parseable as an absolute URL"
instead of the code's `isValidUrl`.  Written from the spec's words for
comparison with `strategyOf`. -/
def specStrategyOf (fileExists : String → Bool) (url : String) : Strategy :=
  if strIncludes url "youtube.com/" || strIncludes url "youtu.be/" then
    Strategy.youtube
  else if strIncludes url "twitch.tv/" then Strategy.twitch
  else if strIncludes url "vidsrc.cc" || strIncludes url "vidlink.pro" then
    Strategy.embed
  else if fileExists url then Strategy.localFile
  else if specParseableAsAbsoluteUrl url then Strategy.directUrl
  else Strategy.search

/-- The result each strategy produces, with raised backend errors caught
to `none` as in `resolveMediaSource`. -/
def runStrategy (b : Backends) (url : String) : Strategy → Option MediaSource
  | Strategy.youtube => (b.youtube url).toOption.join
  | Strategy.twitch => (b.twitch url).toOption.join
  | Strategy.embed => (b.embed url).toOption.join
  | Strategy.localFile => some (resolveLocalSource url)
  | Strategy.directUrl => some (resolveDirectUrlSource b url)
  | Strategy.search => (b.search url).toOption.join

/-! ## Queue model

`QueueService` (`src/services/queue.ts`) is not part of the provided
sources; only its callers in `StreamingService` are.  The definitions
below are therefore modelled from the spec. -/

/-- Outcome of a settled background-download promise: the download helper
resolves with a local path or `null`, or the promise chain rejects. -/
abbrev DownloadOutcome := Except String (Option String)

instance : DecidableEq DownloadOutcome
  | Except.ok a, Except.ok b =>
    if h : a = b then Decidable.isTrue (by rw [h])
    else Decidable.isFalse (by simp [h])
  | Except.ok _, Except.error _ => Decidable.isFalse (by simp)
  | Except.error _, Except.ok _ => Decidable.isFalse (by simp)
  | Except.error a, Except.error b =>
    if h : a = b then Decidable.isTrue (by rw [h])
    else Decidable.isFalse (by simp [h])

/-- One requested playback unit (`QueueItem` of the data model), including
the prefetch handle: `downloadPromise` holds the eventual result of the
background task once attached, `downloadPath` the completed local copy. -/
structure QueueItem where
  id : Nat
  url : String
  title : String
  type : MediaType
  isLive : Bool := false
  originalInput : Option String := none
  requestedBy : String := ""
  headers : Option Headers := none
  downloadPath : Option String := none
  downloadPromise : Option DownloadOutcome := none
  deriving DecidableEq, Repr

/-- Modelled from the spec: the `QueueService` state — ordered items, a
cursor (`-1` when absent or reset), the playing flag, and the monotone id
counter behind the "ids are never reused" invariant (§3).  Cursor
conventions are chosen so that the callers' remove-then-advance pattern
visits each item exactly once, as §8 requires. -/
structure QueueState where
  items : List QueueItem
  currentIndex : Int
  playing : Bool
  nextId : Nat
  deriving DecidableEq, Repr

/-- The freshly constructed empty queue. -/
def QueueState.initial : QueueState :=
  { items := [], currentIndex := -1, playing := false, nextId := 0 }

/-- Modelled from the spec: `getCurrent` — the item at the cursor, absent
when the cursor is out of range. -/
def QueueState.getCurrent (q : QueueState) : Option QueueItem :=
  if h : 0 ≤ q.currentIndex ∧ q.currentIndex.toNat < q.items.length then
    some (q.items.get ⟨q.currentIndex.toNat, h.2⟩)
  else none

/-- Modelled from the spec: `getNext` / `advanceToNext` — moves the cursor
forward one position and returns the new current item, or reports the
queue exhausted without moving. -/
def QueueState.getNext (q : QueueState) : QueueState × Option QueueItem :=
  let i := q.currentIndex + 1
  if h : 0 ≤ i ∧ i.toNat < q.items.length then
    ({ q with currentIndex := i }, some (q.items.get ⟨i.toNat, h.2⟩))
  else (q, none)

/-- Modelled from the spec: `skip` advances the queue once (§4.4); items
are only removed by `advance` after completion or by `clear` (§3). -/
def QueueState.skip (q : QueueState) : QueueState × Option QueueItem :=
  q.getNext

/-- Modelled from the spec: `remove(id)` — removal by identity with the
cursor re-derived so that the item after the removed one is visited
next. -/
def QueueState.removeFromQueue (q : QueueState) (id : Nat) : QueueState :=
  match q.items.findIdx? (fun qi => qi.id = id) with
  | none => q
  | some idx =>
    { q with
      items := q.items.eraseIdx idx
      currentIndex :=
        if (idx : Int) ≤ q.currentIndex then q.currentIndex - 1
        else q.currentIndex }

/-- Modelled from the spec: `enqueue` of a resolved source — appends a
fresh item carrying the raw original input, never fails. -/
def QueueState.addItem (q : QueueState) (ms : MediaSource) (requestedBy : String)
    (originalInput : String) : QueueState × QueueItem :=
  let qi : QueueItem :=
    { id := q.nextId, url := ms.url, title := ms.title, type := ms.type,
      isLive := ms.isLive, originalInput := some originalInput,
      requestedBy := requestedBy, headers := ms.headers }
  ({ q with items := q.items ++ [qi], nextId := q.nextId + 1 }, qi)

/-- Modelled from the spec: the raw `add` overload used for the
unresolved-source fallback. -/
def QueueState.add (q : QueueState) (url title requestedBy : String)
    (type : MediaType) (isLive : Bool) (originalInput : String) :
    QueueState × QueueItem :=
  let qi : QueueItem :=
    { id := q.nextId, url := url, title := title, type := type,
      isLive := isLive, originalInput := some originalInput,
      requestedBy := requestedBy }
  ({ q with items := q.items ++ [qi], nextId := q.nextId + 1 }, qi)

/-- Modelled from the spec: `getLength`. -/
def QueueState.getLength (q : QueueState) : Nat := q.items.length

/-- Modelled from the spec: `isEmpty`. -/
def QueueState.isEmpty (q : QueueState) : Bool := q.items.isEmpty

/-- Modelled from the spec: `setPlaying`. -/
def QueueState.setPlaying (q : QueueState) (b : Bool) : QueueState :=
  { q with playing := b }

/-- Modelled from the spec: `resetCurrentIndex`. -/
def QueueState.resetCurrentIndex (q : QueueState) : QueueState :=
  { q with currentIndex := -1 }

/-- Modelled from the spec: `clearQueue` — empties the sequence and resets
the cursor. -/
def QueueState.clearQueue (q : QueueState) : QueueState :=
  { q with items := [], currentIndex := -1 }

/-! ## Orchestrator state (src/commands/help.ts, StreamingService) -/

/-- Destination channel identifiers held in `StreamStatus`. -/
structure ChannelInfo where
  guildId : String
  channelId : String
  cmdChannelId : String
  deriving DecidableEq, Repr

/-- Process-wide `StreamStatus` record mutated by the orchestrator. -/
structure StreamStatus where
  joined : Bool := false
  joinsucc : Bool := false
  playing : Bool := false
  manualStop : Bool := false
  channelInfo : ChannelInfo := ⟨"", "", ""⟩
  deriving DecidableEq, Repr

/-- The `StreamingService` instance state: its queue, the shared status
record, the skip lock, the failed-video set (a list with set insertion),
the current attempt's abort controller (`some aborted?` when one exists),
the pending 10-minute leave timer, the live yt-dlp pipe, and the playback
start time in milliseconds. -/
structure OrchState where
  queue : QueueState
  status : StreamStatus
  isSkipping : Bool := false
  failedVideos : List String := []
  controller : Option Bool := none
  leaveTimeoutPending : Bool := false
  ytDlpActive : Bool := false
  startTime : Nat := 0
  deriving DecidableEq, Repr

/-- User-visible notifications and externally observable actions the
orchestrator performs, in order. -/
inductive Event
  | sentError (msg : String)
  | sentSuccess (msg : String)
  | sentInfo (title msg : String)
  | sentFinishMessage
  | sentPlaying (title : String)
  | stoppedStream
  | setActivityWatch (title : String)
  | setActivityIdle
  | scheduledAutoPlay (item : QueueItem)
  | startedLeaveTimer
  | killedYtDlp
  | spawnedBackgroundDownload (url : String)
  | deletedTempFile (path : String)
  deriving DecidableEq, Repr

/-- Injected outcomes of the orchestrator's external effects for one
playback attempt: resolver backends, the synchronous and background
download results, whether joining the voice sink succeeds and whether the
connection is up before/after, whether the yt-dlp pipe exposes stdout,
the transcode/transport pipeline's outcome, and the values of the shared
`manualStop` flag and abort signal once the pipeline settles (they can be
flipped concurrently by skip/stop). -/
structure Env where
  backends : Backends
  download : String → Option String
  backgroundDownload : String → DownloadOutcome
  voiceConnBefore : Bool := true
  joinOk : Bool := true
  voiceConnAfter : Bool := true
  ytdlpStdoutOk : Bool := true
  streamResult : Except String Unit := Except.ok ()
  manualStopDuringStream : Bool := false
  abortDuringStream : Bool := false

/-- Set-insertion into the failed-video set (`Set.add`). -/
def insertFailed (v : String) (l : List String) : List String :=
  if v ∈ l then l else v :: l

/-- Model of `markVideoAsFailed`. -/
def markVideoAsFailed (st : OrchState) (videoSource : String) : OrchState :=
  { st with failedVideos := insertFailed videoSource st.failedVideos }

/-- Model of the user-facing notification `ErrorUtils.handleError` sends. -/
def handleErrorEvent (msg : String) : Event :=
  Event.sentError ("An error occurred: " ++ msg)

/-! ## Orchestrator step functions (help.ts StreamingService) -/

/-- Opaque stand-in for `config.guildId`. -/
def cfgGuildId : String := "guild"

/-- Opaque stand-in for `config.videoChannelId`. -/
def cfgVideoChannelId : String := "videoChannel"

/-- Opaque stand-in for `config.cmdChannelId`. -/
def cfgCmdChannelId : String := "cmdChannel"

/-- Model of `cleanupStreamStatus` (help.ts 698–737): aborts the controller, stops
the stream, kills a live yt-dlp pipe, resets activity and status flags,
and — only when the queue is empty — starts the 10-minute auto-disconnect
timer (the sink is left when the timer fires, not here). -/
def cleanupStreamStatus (st : OrchState) : OrchState × List Event :=
  let st := { st with controller := st.controller.map (fun _ => true) }
  let evs := [Event.stoppedStream]
  let (st, evs) :=
    if st.ytDlpActive = true then
      ({ st with ytDlpActive := false }, evs ++ [Event.killedYtDlp])
    else (st, evs)
  let evs := evs ++ [Event.setActivityIdle]
  let st := { st with status :=
    { st.status with playing := false, manualStop := false } }
  if st.queue.isEmpty = true then
    ({ st with leaveTimeoutPending := true }, evs ++ [Event.startedLeaveTimer])
  else (st, evs)

/-- Model of `handleQueueAdvancement` (help.ts 493–518): announce the finish,
remove the just-finished current item, advance the cursor, and either
schedule the next item's playback (the deferred
`playVideoFromQueueItem` call) or stop and clean up. -/
def handleQueueAdvancement (st : OrchState) : OrchState × List Event :=
  let evs := [Event.sentFinishMessage]
  let st :=
    match st.queue.getCurrent with
    | some finishedItem =>
      { st with queue := st.queue.removeFromQueue finishedItem.id }
    | none => st
  let (q, nextItem) := st.queue.getNext
  let st := { st with queue := q }
  match nextItem with
  | some item => (st, evs ++ [Event.scheduledAutoPlay item])
  | none =>
    let st := { st with queue := st.queue.setPlaying false }
    let (st, evs2) := cleanupStreamStatus st
    (st, evs ++ evs2)

/-- The item `handleQueueAdvancement` will schedule from a given queue:
the item after the current one, once the current item is removed. -/
def advancementNext (q : QueueState) : Option QueueItem :=
  let q1 :=
    match q.getCurrent with
    | some finishedItem => q.removeFromQueue finishedItem.id
    | none => q
  q1.getNext.2

/-- Predicate "advances to and plays the next queue item, or returns cleanly to
Idle": from the pre-state queue, either the item after the current one is
scheduled for playback among the produced events, or — when no next item
exists — the post-state reports playback stopped. -/
def advancesOrIdles (qPre : QueueState) (st : OrchState) (evs : List Event) : Prop :=
  match advancementNext qPre with
  | some n => Event.scheduledAutoPlay n ∈ evs
  | none => st.status.playing = false ∧ st.queue.playing = false

/-- Model of `ensureVoiceConnection` (help.ts 341–366): cancels a pending
auto-disconnect timer, joins the sink if not connected, marks the status
record, and fails when the connection cannot be established.  State
changes made before a failure survive it, as in the source. -/
def ensureVoiceConnection (env : Env) (st : OrchState)
    (guildId channelId cmdChannelId : String) :
    OrchState × Except String Unit :=
  let st := { st with leaveTimeoutPending := false }
  if st.status.joined = false ∨ env.voiceConnBefore = false then
    if env.joinOk = false then (st, Except.error "joinVoice failed")
    else
      let st := { st with status := { st.status with joined := true } }
      let newStatus :=
        { st.status with playing := true, channelInfo := ⟨guildId, channelId, cmdChannelId⟩ }
      let st := { st with status := newStatus }
      if env.voiceConnAfter = false then
        (st, Except.error "Voice connection is not established")
      else (st, Except.ok ())
  else
    let newStatus :=
      { st.status with playing := true, channelInfo := ⟨guildId, channelId, cmdChannelId⟩ }
    let st := { st with status := newStatus }
    if env.voiceConnAfter = false then
      (st, Except.error "Voice connection is not established")
    else (st, Except.ok ())

/-- The prepared pipeline input of `prepareVideoSource`. -/
inductive FfmpegInput
  | filePath (p : String)
  | urlInput (u : String)
  | pipe
  deriving DecidableEq, Repr

/-- The `{inputForFfmpeg, tempFilePath, headers}` triple
`prepareVideoSource` returns. -/
structure PrepResult where
  inputForFfmpeg : FfmpegInput
  tempFilePath : Option String := none
  headers : Option Headers := none
  deriving DecidableEq, Repr

/-- Model of `prepareVideoSource` (help.ts 550–605): the prefetch lookup order —
a completed download path on the item, then the awaited background
promise (its failure swallowed), then the synchronous fallback of
resolving and, for non-live YouTube, downloading; Twitch is piped through
yt-dlp; everything else streams the resolved (or raw) URL with the
source's headers taking precedence. -/
def prepareVideoSource (env : Env) (st : OrchState) (videoSource : String)
    (headers : Option Headers) (queueItem : Option QueueItem) :
    OrchState × Except String PrepResult :=
  let fromItem : Option PrepResult :=
    match queueItem with
    | none => none
    | some qi =>
      match qi.downloadPath with
      | some p =>
        if env.backends.fileExists p then
          some { inputForFfmpeg := FfmpegInput.filePath p, tempFilePath := some p }
        else
          match qi.downloadPromise with
          | some (Except.ok (some q)) =>
            if env.backends.fileExists q then
              some { inputForFfmpeg := FfmpegInput.filePath q, tempFilePath := some q }
            else none
          | _ => none
      | none =>
        match qi.downloadPromise with
        | some (Except.ok (some q)) =>
          if env.backends.fileExists q then
            some { inputForFfmpeg := FfmpegInput.filePath q, tempFilePath := some q }
          else none
        | _ => none
  match fromItem with
  | some r => (st, Except.ok r)
  | none =>
    let mediaSource := resolveMediaSource env.backends videoSource
    match mediaSource with
    | some ms =>
      if ms.type = MediaType.youtube ∧ ms.isLive = false then
        match env.download videoSource with
        | some tempFilePath =>
          let r : PrepResult :=
            { inputForFfmpeg := FfmpegInput.filePath tempFilePath, tempFilePath := some tempFilePath }
          (st, Except.ok r)
        | none =>
          (st, Except.error "Failed to prepare video source due to download failure.")
      else if ms.type = MediaType.twitch then
        if env.ytdlpStdoutOk = true then
          ({ st with ytDlpActive := true },
           Except.ok { inputForFfmpeg := FfmpegInput.pipe })
        else
          ({ st with ytDlpActive := true },
           Except.error "Failed to create stream from yt-dlp")
      else
        let r : PrepResult :=
          { inputForFfmpeg := FfmpegInput.urlInput ms.url, headers := ms.headers <|> headers }
        (st, Except.ok r)
    | none =>
      let r : PrepResult :=
        { inputForFfmpeg := FfmpegInput.urlInput videoSource, headers := headers }
      (st, Except.ok r)

/-- Model of `finalizeStream` (help.ts 612–628): advance the queue after a natural
finish, otherwise mark the queue stopped and clean up; always delete a
temp file. -/
def finalizeStream (st : OrchState) (tempFile : Option String) :
    OrchState × List Event :=
  let (st, evs) :=
    if st.status.manualStop = false ∧ st.controller = some false then
      handleQueueAdvancement st
    else
      let st := { st with queue := (st.queue.setPlaying false).resetCurrentIndex }
      cleanupStreamStatus st
  match tempFile with
  | some p => (st, evs ++ [Event.deletedTempFile p])
  | none => (st, evs)

/-- The catch block of `playVideo` (help.ts 687–695): report the error,
mark the source failed, and — unless the stop was deliberate — advance
the queue. -/
def playVideoCatch (st : OrchState) (e : String) (videoSource : String) :
    OrchState × List Event :=
  let evs := [handleErrorEvent e]
  let st := markVideoAsFailed st videoSource
  if st.status.manualStop = true then (st, evs)
  else
    let (st, evs2) := handleQueueAdvancement st
    (st, evs ++ evs2)

/-- Model of `playVideo` (help.ts 630–696): one playback attempt, from joining the
sink through preparing the input and running the pipeline to the
finalize/catch epilogue.  `seekTime` shifts the recorded start time for
crash-resume.  The values the shared `manualStop` flag and abort signal
hold once the pipeline settles come from the environment, standing for
concurrent skip/stop requests observed through them. -/
def playVideo (env : Env) (now : Nat) (st : OrchState) (videoSource : String)
    (title : Option String) (headers : Option Headers)
    (queueItem : Option QueueItem) (seekTime : Option Nat) :
    OrchState × List Event :=
  let st := { st with status := { st.status with manualStop := false } }
  let st :=
    match title, st.queue.getCurrent with
    | some t, some cur =>
      if cur.title = t then { st with queue := st.queue.setPlaying true } else st
    | _, _ => st
  let st := { st with leaveTimeoutPending := false }
  let (st, conn) := ensureVoiceConnection env st cfgGuildId cfgVideoChannelId cfgCmdChannelId
  match conn with
  | Except.error e => playVideoCatch st e videoSource
  | Except.ok _ =>
    let (st, prep) := prepareVideoSource env st videoSource headers queueItem
    match prep with
    | Except.error e => playVideoCatch st e videoSource
    | Except.ok r =>
      let statusTitle := title.getD "Video"
      let st := { st with status := { st.status with playing := true } }
      let st := { st with startTime := now - (seekTime.getD 0) * 1000 }
      let evs := [Event.setActivityWatch statusTitle]
      let st := { st with controller := some false }
      let st := { st with
        status := { st.status with manualStop := env.manualStopDuringStream } }
      match env.streamResult with
      | Except.error e =>
        let st := { st with controller := some true }
        let (st, evs2) := playVideoCatch st e videoSource
        (st, evs ++ evs2)
      | Except.ok _ =>
        let st := { st with controller := some env.abortDuringStream }
        let (st, evs2) := finalizeStream st r.tempFilePath
        (st, evs ++ evs2)

/-- The outcome of `skipCurrent`, used to observe which transition a skip
request took. -/
inductive SkipResult
  | notPlaying
  | alreadySkipping
  | queueEmpty
  | playingNext (item : QueueItem)
  deriving DecidableEq, Repr

/-- Model of `skipCurrent` (help.ts 253–299): the skip transition up to the point
where playback of the next item is handed off.  The in-flight guard
rejects a second skip unless the queue is down to its last item; the
empty-queue branch stops playback and cleans up; the hand-off to
`playVideoFromQueueItem` is returned as `SkipResult.playingNext`, with
the `finally` reset of the skip lock applied. -/
def skipCurrent (st : OrchState) : OrchState × List Event × SkipResult :=
  if st.status.playing = false then
    (st, [Event.sentError "No video is currently playing."], SkipResult.notPlaying)
  else
    let queueLength := st.queue.getLength
    let isLastItem := queueLength ≤ 1
    if st.isSkipping = true ∧ ¬isLastItem then
      (st, [Event.sentError "Skip already in progress."], SkipResult.alreadySkipping)
    else
      let st := { st with isSkipping := true }
      let st := { st with status := { st.status with manualStop := true } }
      let st := { st with controller := st.controller.map (fun _ => true) }
      let evs := [Event.stoppedStream]
      let currentItem := st.queue.getCurrent
      let (q, nextItem) := st.queue.skip
      let st := { st with queue := q }
      match nextItem with
      | none =>
        let evs := evs ++ [Event.sentInfo "Queue" "No more videos in queue."]
        let st := { st with queue := st.queue.setPlaying false }
        let (st, evs2) := cleanupStreamStatus st
        ({ st with isSkipping := false }, evs ++ evs2, SkipResult.queueEmpty)
      | some item =>
        let currentTitle :=
          match currentItem with
          | some c => c.title
          | none => "current video"
        let evs := evs ++ [Event.sentInfo "Skipping"
          ("Skipping " ++ currentTitle ++ ". Playing next: " ++ item.title)]
        let st := { st with status := { st.status with manualStop := false } }
        ({ st with isSkipping := false }, evs, SkipResult.playingNext item)

/-! ## Prefetcher (help.ts startBackgroundDownload / addToQueue) -/

/-- The `.then`/`.catch` chain of `startBackgroundDownload`, applied to a
settled background task: on fulfilment the resolved path (possibly null)
is written to `downloadPath`; a rejection is stored and re-thrown. -/
def attachDownload (outcome : DownloadOutcome) (qi : QueueItem) : QueueItem :=
  match outcome with
  | Except.ok p =>
    { qi with downloadPromise := some (Except.ok p), downloadPath := p }
  | Except.error e =>
    { qi with downloadPromise := some (Except.error e) }

/-- Model of `startBackgroundDownload` (help.ts 222–234): unconditionally spawns a
background download for the item and overwrites `downloadPromise` with
the new task's handle.  The spawn is recorded as an event. -/
def startBackgroundDownload (env : Env) (st : OrchState) (itemId : Nat)
    (itemUrl : String) : OrchState × List Event :=
  let outcome := env.backgroundDownload itemUrl
  let newItems :=
    st.queue.items.map (fun qi => if qi.id = itemId then attachDownload outcome qi else qi)
  let st := { st with queue := { st.queue with items := newItems } }
  (st, [Event.spawnedBackgroundDownload itemUrl])

/-- Model of `addToQueue` (help.ts 184–220): resolve the input; on success enqueue
the resolved source and start a background download for non-live YouTube
items; on a null resolution enqueue the raw input as an opaque playable
URL.  Returns the updated state, the events, and the boolean the method
returns. -/
def addToQueue (env : Env) (st : OrchState) (username : String)
    (videoSource : String) (title : Option String) :
    OrchState × List Event × Bool :=
  match resolveMediaSource env.backends videoSource with
  | some mediaSource =>
    let (q, queueItem) := st.queue.addItem mediaSource username videoSource
    let st := { st with queue := q }
    let evs := [Event.sentSuccess ("Added to queue: " ++ queueItem.title)]
    if queueItem.type = MediaType.youtube ∧ queueItem.isLive = false then
      let (st, evs2) := startBackgroundDownload env st queueItem.id queueItem.url
      (st, evs ++ evs2, true)
    else (st, evs, true)
  | none =>
    let (q, queueItem) := st.queue.add videoSource (title.getD videoSource)
      username MediaType.url false videoSource
    let st := { st with queue := q }
    (st, [Event.sentSuccess ("Added to queue: " ++ queueItem.title)], true)

/-! ## Playback snapshot (help.ts saveState / resumeState) -/

/-- The JSON record written to `playback_state.json`. -/
structure PlaybackState where
  currentQueueIndex : Int
  queue : List QueueItem
  lastActive : Nat
  voiceChannelId : String
  textChannelId : String
  isPlaying : Bool
  videoSource : String
  timestamp : Nat
  deriving DecidableEq, Repr

/-- Model of `saveState` (help.ts 98–118): no write without a current item;
otherwise the snapshot captures the queue, cursor, wall-clock time,
the current item's original input (falling back to its URL), and the
elapsed playback seconds. -/
def saveState (now : Nat) (st : OrchState) : Option PlaybackState :=
  match st.queue.getCurrent with
  | none => none
  | some currentItem =>
    some
      { currentQueueIndex := st.queue.currentIndex
        queue := st.queue.items
        lastActive := now
        voiceChannelId := cfgVideoChannelId
        textChannelId := cfgCmdChannelId
        isPlaying := st.status.playing
        videoSource := jsOrStr currentItem.originalInput currentItem.url
        timestamp := (now - st.startTime) / 1000 }

/-- One tick of the 10-second state saver (help.ts 90–96): a snapshot is
written only while playing. -/
def stateSaverTick (now : Nat) (st : OrchState) : Option PlaybackState :=
  if st.status.playing = true then saveState now st else none

/-- What `resumeState` does with the snapshot file at process start. -/
inductive ResumeAction
  | noFile
  | discardedStale
  | channelUnavailable
  | noCurrentEntry
  | resumed (source : String) (title : String) (seek : Nat)
  deriving DecidableEq, Repr

/-- Model of `state.queue[state.currentQueueIndex]` with JavaScript out-of-range
indexing yielding `undefined`. -/
def snapshotCurrent (s : PlaybackState) : Option QueueItem :=
  if h : 0 ≤ s.currentQueueIndex ∧ s.currentQueueIndex.toNat < s.queue.length then
    some (s.queue.get ⟨s.currentQueueIndex.toNat, h.2⟩)
  else none

/-- Model of `resumeState` (help.ts 121–169): no file means no resume; a snapshot
whose `lastActive` is more than one hour old is deleted and ignored;
otherwise the snapshot's current entry is re-enqueued via `addToQueue`
and played with the saved elapsed seconds as the seek position
(`resumed source title seek` stands for that `addToQueue`/`playVideo`
pair). -/
def resumeState (now : Nat) (file : Option PlaybackState) (channelOk : Bool) :
    ResumeAction :=
  match file with
  | none => ResumeAction.noFile
  | some state =>
    if 3600000 < now - state.lastActive then ResumeAction.discardedStale
    else if ¬channelOk then ResumeAction.channelUnavailable
    else
      match snapshotCurrent state with
      | some current =>
        ResumeAction.resumed (jsOrStr current.originalInput current.url)
          current.title state.timestamp
      | none => ResumeAction.noCurrentEntry

/-! ## ffmpeg utilities (src/utils/ffmpeg.ts) -/

/-- The per-timestamp screenshot outcomes: `shot path index` is the
result of the ffmpeg invocation for the `index`-th timestamp. -/
structure ShotEnv where
  shot : String → Nat → Except String Unit
  previewCacheDir : String

/-- The percentage-based timestamps of `ffmpegScreenshot`. -/
def screenshotTimestamps : List String := ["10%", "30%", "50%", "70%", "90%"]

/-- The sequential screenshot loop: collects one image path per
timestamp, aborting on the first ffmpeg error. -/
def runScreenshots (env : ShotEnv) (videoPath : String) (videoName : String) :
    Nat → List String → Except String (List String)
  | _, [] => Except.ok []
  | index, _ :: rest =>
    match env.shot videoPath index with
    | Except.error e => Except.error e
    | Except.ok _ =>
      let filename := videoName ++ "-" ++ toString (index + 1) ++ ".jpg"
      match runScreenshots env videoPath videoName (index + 1) rest with
      | Except.error e => Except.error e
      | Except.ok images =>
        Except.ok ((env.previewCacheDir ++ "/" ++ filename) :: images)

/-- Update of the `ffmpegRunning` lock map. -/
def setLock (locks : String → Bool) (p : String) (b : Bool) : String → Bool :=
  fun q => if q = p then b else locks q

/-- Model of `ffmpegScreenshot` (ffmpeg.ts 51–94) from the moment it acquires the
per-path lock: the screenshot loop runs under the lock and the `finally`
releases it whatever the outcome.  The entry polling loop is the wait for
this lock to be free; the call is modelled from acquisition onwards. -/
def ffmpegScreenshot (env : ShotEnv) (videoPath : String)
    (locks : String → Bool) :
    Except String (List String) × (String → Bool) :=
  let locks := setLock locks videoPath true
  let videoName : String := ⟨stripLastExt (afterLastSlash videoPath.data)⟩
  let result := runScreenshots env videoPath videoName 0 screenshotTimestamps
  (result, setLock locks videoPath false)

/-- The slice of an ffprobe stream record `getVideoParams` reads.
Optional numeric fields are `Option Nat` (JavaScript `undefined` is
`none`). -/
structure FfprobeStream where
  codec_type : String
  width : Option Nat := none
  height : Option Nat := none
  r_frame_rate : Option String := none
  avg_frame_rate : Option String := none
  bit_rate : Option String := none
  max_bit_rate : Option String := none
  deriving DecidableEq, Repr

/-- The record `getVideoParams` resolves with.  `fps` is an optional
rational: `none` models the JavaScript `NaN` a malformed numerator would
produce. -/
structure VideoParams where
  width : Nat
  height : Nat
  bitrate : String
  maxbitrate : String
  fps : Option ℚ
  deriving DecidableEq, Repr

/-- The frame-rate computation of `getVideoParams` (ffmpeg.ts 124–130):
split the fraction, convert with `Number`, and divide only when the
denominator is truthy — a missing, zero, or unparseable denominator
yields 0. -/
def computeFps (rFrameRate : List Char) : Option ℚ :=
  let parts := splitOnChar '/' rFrameRate
  let numerator : Option ℚ :=
    match parts.get? 0 with
    | some s => jsNumber s
    | none => none
  let denominator : Option (Option ℚ) := (parts.get? 1).map jsNumber
  match denominator with
  | some (some d) => if d ≠ 0 then numerator.map (fun n => n / d) else some 0
  | some none => some 0
  | none => some 0

/-- Model of `getVideoParams` (ffmpeg.ts 113–145) applied to a settled ffprobe
outcome: a probe error rejects; a video stream with truthy width and
height resolves with those dimensions, string bitrates defaulting to
`"N/A"`, and the guarded frame rate; anything else rejects. -/
def getVideoParams (videoPath : String)
    (probe : Except String (List FfprobeStream)) :
    Except String VideoParams :=
  match probe with
  | Except.error e => Except.error e
  | Except.ok streams =>
    match streams.find? (fun s => s.codec_type = "video") with
    | some videoStream =>
      match videoStream.width, videoStream.height with
      | some w, some h =>
        if w ≠ 0 ∧ h ≠ 0 then
          let rFrameRate := jsOrStrOpt videoStream.r_frame_rate videoStream.avg_frame_rate
          let fps : Option ℚ :=
            match rFrameRate with
            | some s => computeFps s.data
            | none => some 0
          Except.ok
            { width := w
              height := h
              bitrate := jsOrStr videoStream.bit_rate "N/A"
              maxbitrate := jsOrStr videoStream.max_bit_rate "N/A"
              fps := fps }
        else Except.error ("Unable to get video parameters for " ++ videoPath)
      | _, _ => Except.error ("Unable to get video parameters for " ++ videoPath)
    | none => Except.error ("Unable to get video parameters for " ++ videoPath)

/-! ## Concrete fixtures for witnesses and counterexamples -/

/-- Backends whose every delegated call raises. -/
def noBackends : Backends :=
  { youtube := fun _ => Except.error "network down"
    twitch := fun _ => Except.error "network down"
    embed := fun _ => Except.error "network down"
    search := fun _ => Except.error "network down"
    ytdlProbe := fun _ => Except.error "network down"
    fileExists := fun _ => false }

/-- A distinctive source returned by the search backend. -/
def searchMarker : MediaSource :=
  { url := "https://youtube.com/watch?v=marker"
    title := "Search Result"
    type := MediaType.youtube }

/-- Backends where search succeeds with `searchMarker` and the metadata
probe returns a distinct probed title. -/
def cexBackends : Backends :=
  { noBackends with
    search := fun _ => Except.ok (some searchMarker)
    ytdlProbe := fun _ => Except.ok { title := some "Probed Title" } }

/-- A neutral environment: resolution fails soft, downloads fail,
connections succeed, the stream finishes cleanly. -/
def baseEnv : Env :=
  { backends := noBackends
    download := fun _ => none
    backgroundDownload := fun _ => Except.error "background download failed" }

/-- Environment where joining the voice sink fails. -/
def cexEnvJoinFail : Env := { baseEnv with joinOk := false }

/-- Environment where the transcode/transport pipeline errors mid-stream. -/
def envStreamFail : Env := { baseEnv with streamResult := Except.error "ffmpeg exited" }

/-- Sample queue item A. -/
def itemA : QueueItem :=
  { id := 0, url := "https://a.example/v.mp4", title := "A", type := MediaType.url
    originalInput := some "https://a.example/v.mp4" }

/-- Sample queue item B. -/
def itemB : QueueItem :=
  { id := 1, url := "https://b.example/v.mp4", title := "B", type := MediaType.url
    originalInput := some "https://b.example/v.mp4" }

/-- An item whose background download already completed. -/
def itemDownloaded : QueueItem :=
  { itemA with downloadPath := some "/tmp/a.mp4"
               downloadPromise := some (Except.ok (some "/tmp/a.mp4")) }

/-- A playing orchestrator with a two-item queue and a skip in flight. -/
def stTwoSkipping : OrchState :=
  { queue := { items := [itemA, itemB], currentIndex := 0, playing := true, nextId := 2 }
    status := { joined := true, playing := true }
    isSkipping := true }

/-- A playing orchestrator down to its last queue item, skip in flight. -/
def stOneSkipping : OrchState :=
  { queue := { items := [itemA], currentIndex := 0, playing := true, nextId := 2 }
    status := { joined := true, playing := true }
    isSkipping := true }

/-- A two-item queue about to start playback, sink not yet joined. -/
def stPlayTwo : OrchState :=
  { queue := { items := [itemA, itemB], currentIndex := 0, playing := true, nextId := 2 }
    status := { joined := false, playing := false } }

/-- The freshly constructed orchestrator at process start. -/
def stInitial : OrchState :=
  { queue := QueueState.initial, status := {} }

/-- An environment that can find the completed download on disk. -/
def envFileOnDisk : Env :=
  { baseEnv with backends := { noBackends with fileExists := fun p => p = "/tmp/a.mp4" } }

/-- An item whose background download promise settled but whose
`downloadPath` was not yet written. -/
def itemPromisedOnly : QueueItem :=
  { itemA with downloadPromise := some (Except.ok (some "/tmp/a.mp4")) }

/-- An item whose background download rejected. -/
def itemPromiseFailed : QueueItem :=
  { itemA with downloadPromise := some (Except.error "background download failed") }

/-- A state holding just the already-downloaded item. -/
def stWithDownloaded : OrchState :=
  { queue := { items := [itemDownloaded], currentIndex := -1, playing := false, nextId := 2 }
    status := {} }

/-- Recognizer for background-download spawn events. -/
def isSpawnEvent : Event → Bool
  | Event.spawnedBackgroundDownload _ => true
  | _ => false

/-- A resolvable non-live YouTube source. -/
def ytSource : MediaSource :=
  { url := "https://youtube.com/watch?v=abc", title := "YT Video"
    type := MediaType.youtube, isLive := false }

/-- Backends resolving YouTube links to `ytSource`. -/
def ytBackends : Backends :=
  { noBackends with youtube := fun _ => Except.ok (some ytSource) }

/-- Environment where a YouTube item resolves but its synchronous
download fails, so preparation errors. -/
def envPrepFail : Env := { baseEnv with backends := ytBackends }

/-! ## Theorems -/

/-- C9: every call to `ffmpegScreenshot` releases its per-video-path lock
on exit — whatever the screenshot outcomes, the running flag for that
path is false once the call settles (and no other path's flag is
touched), so a failed run never leaves the path locked and a later call
for the same path can proceed. -/
theorem ffmpegScreenshot_releases_lock (env : ShotEnv) (videoPath : String)
    (locks : String → Bool) (q : String) :
    (ffmpegScreenshot env videoPath locks).2 q =
      if q = videoPath then false else locks q := by
  unfold ffmpegScreenshot setLock
  by_cases h : q = videoPath <;> simp [h]

/-- C10: `getVideoParams` never divides by zero computing the frame rate
— a missing, zero, or unparseable denominator yields fps 0 — a probe
error rejects, and a resolved result always carries the video stream's
present, non-zero width and height. -/
theorem getVideoParams_safe :
    (∀ l : List Char,
      (∀ d, (splitOnChar '/' l)[1]? = some d →
        jsNumber d = none ∨ jsNumber d = some 0) →
      computeFps l = some 0)
    ∧ (∀ videoPath e, getVideoParams videoPath (Except.error e) = Except.error e)
    ∧ (∀ videoPath streams p,
        getVideoParams videoPath (Except.ok streams) = Except.ok p →
        ∃ vs, streams.find? (fun s => s.codec_type = "video") = some vs ∧
          vs.width = some p.width ∧ vs.height = some p.height ∧
          p.width ≠ 0 ∧ p.height ≠ 0) := by
  refine ⟨?_, ?_, ?_⟩
  · intro l h
    unfold computeFps
    cases hd : (splitOnChar '/' l)[1]? with
    | none => simp [hd]
    | some d =>
      rcases h d hd with h0 | h0 <;> simp [hd, h0]
  · intro videoPath e
    rfl
  · intro videoPath streams p h
    unfold getVideoParams at h
    dsimp only at h
    cases hfind : streams.find? (fun s => s.codec_type = "video") with
    | none => rw [hfind] at h; exact absurd h (by simp)
    | some vs =>
      rw [hfind] at h
      dsimp only at h
      cases hw : vs.width with
      | none => rw [hw] at h; dsimp only at h; exact absurd h (by simp)
      | some w =>
        cases hh : vs.height with
        | none => rw [hw, hh] at h; dsimp only at h; exact absurd h (by simp)
        | some hgt =>
          rw [hw, hh] at h
          dsimp only at h
          by_cases hnz : w ≠ 0 ∧ hgt ≠ 0
          · rw [if_pos hnz] at h
            have hp := (Except.ok.injEq _ _).mp h
            refine ⟨vs, rfl, ?_, ?_, ?_, ?_⟩
            · rw [hw, ← hp]
            · rw [hh, ← hp]
            · rw [← hp]; exact hnz.1
            · rw [← hp]; exact hnz.2
          · rw [if_neg hnz] at h
            exact absurd h (by simp)

/-- C10 witness: a concrete zero-denominator frame rate yields fps 0, and
a concrete probe result resolves with its stream's dimensions. -/
theorem getVideoParams_safe_witness :
    computeFps "30/0".data = some 0 ∧
    (∃ vs, [({ codec_type := "video", width := some 1280, height := some 720,
               r_frame_rate := some "30/0" } : FfprobeStream)].find?
        (fun s => s.codec_type = "video") = some vs ∧
      vs.width = some 1280 ∧ vs.height = some 720 ∧
      (1280 : Nat) ≠ 0 ∧ (720 : Nat) ≠ 0) := by
  constructor
  · refine getVideoParams_safe.1 "30/0".data ?_
    intro d hd
    right
    have hde : ['0'] = d := by injection hd
    rw [← hde]
    rfl
  · have h := getVideoParams_safe.2.2 "p"
      [({ codec_type := "video", width := some 1280, height := some 720,
          r_frame_rate := some "30/0" } : FfprobeStream)]
      { width := 1280, height := 720, bitrate := "N/A", maxbitrate := "N/A", fps := some 0 }
      (by rfl)
    exact h

/-- C5: when preparing a queue item, the orchestrator (a) directly uses a
completed background-download path stored on the item, (b) otherwise
awaits a pending background download promise and uses its path, and
(c)/(d) falls back to the synchronous preparation — identical to a run
with no prefetch handle at all, so the background failure is swallowed,
never surfaced — when the background task failed or is absent. -/
theorem prepareVideoSource_lookup_order :
    (∀ env st v hdrs qi p, qi.downloadPath = some p →
      env.backends.fileExists p = true →
      prepareVideoSource env st v hdrs (some qi) =
        (st, Except.ok { inputForFfmpeg := FfmpegInput.filePath p, tempFilePath := some p }))
    ∧ (∀ env st v hdrs qi p, qi.downloadPath = none →
      qi.downloadPromise = some (Except.ok (some p)) →
      env.backends.fileExists p = true →
      prepareVideoSource env st v hdrs (some qi) =
        (st, Except.ok { inputForFfmpeg := FfmpegInput.filePath p, tempFilePath := some p }))
    ∧ (∀ env st v hdrs qi e, qi.downloadPath = none →
      qi.downloadPromise = some (Except.error e) →
      prepareVideoSource env st v hdrs (some qi) =
        prepareVideoSource env st v hdrs none)
    ∧ (∀ env st v hdrs qi, qi.downloadPath = none → qi.downloadPromise = none →
      prepareVideoSource env st v hdrs (some qi) =
        prepareVideoSource env st v hdrs none) := by
  refine ⟨?_, ?_, ?_, ?_⟩
  · intro env st v hdrs qi p hdp hfe
    simp [prepareVideoSource, hdp, hfe]
  · intro env st v hdrs qi p hdp hpr hfe
    simp [prepareVideoSource, hdp, hpr, hfe]
  · intro env st v hdrs qi e hdp hpr
    simp [prepareVideoSource, hdp, hpr]
  · intro env st v hdrs qi hdp hpr
    simp [prepareVideoSource, hdp, hpr]

/-- C5 witness: the four lookup cases at concrete items. -/
theorem prepareVideoSource_lookup_order_witness :
    prepareVideoSource envFileOnDisk stInitial "v" none (some itemDownloaded) =
      (stInitial, Except.ok
        ⟨FfmpegInput.filePath "/tmp/a.mp4", some "/tmp/a.mp4", none⟩)
    ∧ prepareVideoSource envFileOnDisk stInitial "v" none (some itemPromisedOnly) =
      (stInitial, Except.ok
        ⟨FfmpegInput.filePath "/tmp/a.mp4", some "/tmp/a.mp4", none⟩)
    ∧ prepareVideoSource envFileOnDisk stInitial "v" none (some itemPromiseFailed) =
      prepareVideoSource envFileOnDisk stInitial "v" none none
    ∧ prepareVideoSource envFileOnDisk stInitial "v" none (some itemA) =
      prepareVideoSource envFileOnDisk stInitial "v" none none := by
  refine ⟨?_, ?_, ?_, ?_⟩
  · exact prepareVideoSource_lookup_order.1 envFileOnDisk stInitial "v" none
      itemDownloaded "/tmp/a.mp4" rfl (by decide)
  · exact prepareVideoSource_lookup_order.2.1 envFileOnDisk stInitial "v" none
      itemPromisedOnly "/tmp/a.mp4" rfl rfl (by decide)
  · exact prepareVideoSource_lookup_order.2.2.1 envFileOnDisk stInitial "v" none
      itemPromiseFailed "background download failed" rfl rfl
  · exact prepareVideoSource_lookup_order.2.2.2 envFileOnDisk stInitial "v" none
      itemA rfl rfl

/-- The items after a `startBackgroundDownload` call: the chosen item gets
the fresh task's handle, every other item is untouched. -/
theorem startBackgroundDownload_items (env : Env) (st : OrchState)
    (itemId : Nat) (itemUrl : String) :
    (startBackgroundDownload env st itemId itemUrl).1.queue.items =
      st.queue.items.map (fun qi =>
        if qi.id = itemId then attachDownload (env.backgroundDownload itemUrl) qi
        else qi) := rfl

/-- Each `startBackgroundDownload` call spawns exactly one task. -/
theorem startBackgroundDownload_events (env : Env) (st : OrchState)
    (itemId : Nat) (itemUrl : String) :
    (startBackgroundDownload env st itemId itemUrl).2 =
      [Event.spawnedBackgroundDownload itemUrl] := rfl

/-- C6 counterexample: attaching a background download to an item that
already has a completed download is not a no-op — the new task is spawned
unconditionally and its outcome overwrites the existing handle. -/
theorem startBackgroundDownload_not_idempotent :
    attachDownload (Except.error "network down") itemDownloaded ≠ itemDownloaded
    ∧ (attachDownload (Except.error "network down") itemDownloaded).downloadPromise
        = some (Except.error "network down")
    ∧ (startBackgroundDownload baseEnv stWithDownloaded
        itemDownloaded.id itemDownloaded.url).2
      = [Event.spawnedBackgroundDownload itemDownloaded.url] := by
  refine ⟨?_, rfl, rfl⟩
  intro h
  have hpr := congrArg QueueItem.downloadPromise h
  simp [attachDownload, itemDownloaded, itemA] at hpr

/-- C6 as amended: attachment is unconditional, so at-most-one-task-per-
item comes from the call site — each `addToQueue` call spawns at most one
background download, only for the item it just created, and leaves every
previously queued item (in particular its prefetch handle) untouched. -/
theorem addToQueue_spawns_at_most_once (env : Env) (st : OrchState)
    (user src : String) (title : Option String)
    (hids : ∀ qi ∈ st.queue.items, qi.id < st.queue.nextId) :
    ((addToQueue env st user src title).2.1.countP isSpawnEvent ≤ 1)
    ∧ ∀ qi ∈ st.queue.items, qi ∈ (addToQueue env st user src title).1.queue.items := by
  unfold addToQueue
  cases hres : resolveMediaSource env.backends src with
  | none =>
    dsimp only
    constructor
    · simp [isSpawnEvent, List.countP_cons, List.countP_nil]
    · intro qi hqi
      simp only [QueueState.add]
      exact List.mem_append_left _ hqi
  | some ms =>
    dsimp only [QueueState.addItem]
    by_cases hyt : ms.type = MediaType.youtube ∧ ms.isLive = false
    · rw [if_pos hyt]
      constructor
      · simp [startBackgroundDownload_events, isSpawnEvent,
          List.countP_cons, List.countP_nil, List.countP_append]
      · intro qi hqi
        rw [startBackgroundDownload_items]
        dsimp only
        have hne : qi.id ≠ st.queue.nextId := Nat.ne_of_lt (hids qi hqi)
        have hqi2 : qi ∈ st.queue.items ++
            [({ id := st.queue.nextId, url := ms.url, title := ms.title,
                type := ms.type, isLive := ms.isLive, originalInput := some src,
                requestedBy := user, headers := ms.headers } : QueueItem)] :=
          List.mem_append_left _ hqi
        have hfix : (if qi.id = st.queue.nextId then
            attachDownload (env.backgroundDownload ms.url) qi else qi) = qi :=
          if_neg hne
        exact hfix ▸ List.mem_map_of_mem _ hqi2
    · rw [if_neg hyt]
      constructor
      · simp [isSpawnEvent, List.countP_cons, List.countP_nil]
      · intro qi hqi
        exact List.mem_append_left _ hqi

/-- C6 amended-claim witness: a concrete `addToQueue` call spawning at
most one background task while leaving the already-queued item
untouched. -/
theorem addToQueue_spawns_at_most_once_witness :
    ((addToQueue baseEnv stOneSkipping "user" "plain text" none).2.1.countP
        isSpawnEvent ≤ 1)
    ∧ ∀ qi ∈ stOneSkipping.queue.items,
        qi ∈ (addToQueue baseEnv stOneSkipping "user" "plain text" none).1.queue.items := by
  exact addToQueue_spawns_at_most_once baseEnv stOneSkipping "user" "plain text" none
    (by decide)

/-- C7: resolving a media source never raises to the caller — any raised
backend error is caught and becomes `none` — and on a `none` resolution
`addToQueue` falls back to enqueuing the raw input as an opaque playable
URL item. -/
theorem resolveMediaSource_fails_soft :
    (∀ b url e, dispatchE b url = Except.error e → resolveMediaSource b url = none)
    ∧ (∀ env st user src title,
        resolveMediaSource env.backends src = none →
        ∃ qi, (addToQueue env st user src title).1.queue.items
            = st.queue.items ++ [qi]
          ∧ qi.url = src ∧ qi.type = MediaType.url ∧ qi.originalInput = some src
          ∧ (addToQueue env st user src title).2.2 = true) := by
  constructor
  · intro b url e h
    unfold resolveMediaSource
    rw [h]
  · intro env st user src title h
    unfold addToQueue
    rw [h]
    dsimp only [QueueState.add]
    exact ⟨_, rfl, rfl, rfl, rfl, rfl⟩

/-- C7 witness: with every backend raising, a free-text input resolves to
`none` and the fallback enqueues the raw input. -/
theorem resolveMediaSource_fails_soft_witness :
    resolveMediaSource noBackends "plain text query" = none
    ∧ ∃ qi, (addToQueue baseEnv stInitial "user" "plain text query" none).1.queue.items
        = stInitial.queue.items ++ [qi]
      ∧ qi.url = "plain text query" ∧ qi.type = MediaType.url
      ∧ qi.originalInput = some "plain text query"
      ∧ (addToQueue baseEnv stInitial "user" "plain text query" none).2.2 = true := by
  have h1 : resolveMediaSource noBackends "plain text query" = none :=
    resolveMediaSource_fails_soft.1 noBackends "plain text query" "network down"
      (by rfl)
  exact ⟨h1, resolveMediaSource_fails_soft.2 baseEnv stInitial "user"
    "plain text query" none h1⟩

/-- C8 counterexample: `ftp://example.com/video.mp4` is parseable as an
absolute URL, so the claim's dispatch order sends it to the direct-URL
strategy; the code's `isValidUrl` gate rejects it and the resolver
actually performs a free-text search, whose result differs from what the
direct-URL strategy would produce. -/
theorem resolver_dispatch_order_counterexample :
    specStrategyOf cexBackends.fileExists "ftp://example.com/video.mp4"
      = Strategy.directUrl
    ∧ strategyOf cexBackends.fileExists "ftp://example.com/video.mp4"
      = Strategy.search
    ∧ resolveMediaSource cexBackends "ftp://example.com/video.mp4"
      = some searchMarker
    ∧ runStrategy cexBackends "ftp://example.com/video.mp4" Strategy.directUrl
      ≠ some searchMarker := by
  refine ⟨by decide, by decide, by decide, by decide⟩

/-- C8 as amended: the resolver does try its strategies in the fixed
priority order claimed — hosted-platform link, live-platform link, embed
domains, local file, direct URL, free-text search, first match winning —
but the direct-URL strategy is triggered by the code's `isValidUrl`
check (an `http(s)://` prefix or a known streaming-domain substring),
not by URL parseability; within it, a failed or titleless metadata probe
falls back to the original URL with a filename-derived title. -/
theorem resolver_dispatch_order (b : Backends) (url : String) :
    resolveMediaSource b url = runStrategy b url (strategyOf b.fileExists url)
    ∧ (strategyOf b.fileExists url = Strategy.directUrl → isValidUrl url = true)
    ∧ (∀ e, b.ytdlProbe url = Except.error e →
        resolveDirectUrlSource b url =
          { url := url, title := fallbackDirectUrlTitle url, type := MediaType.url }) := by
  refine ⟨?_, ?_, ?_⟩
  · unfold resolveMediaSource dispatchE strategyOf runStrategy
    split_ifs with h1 h2 h3 h4 h5
    · cases b.youtube url <;> simp [Except.toOption, Option.join]
    · cases b.twitch url <;> simp [Except.toOption, Option.join]
    · cases b.embed url <;> simp [Except.toOption, Option.join]
    · rfl
    · rfl
    · cases b.search url <;> simp [Except.toOption, Option.join]
  · intro h
    unfold strategyOf at h
    split_ifs at h
    · assumption
  · intro e h
    unfold resolveDirectUrlSource
    rw [h]

/-- C8 amended-claim witness: the order theorem applied at the
counterexample input, with the probe-failure fallback at a raising
backend. -/
theorem resolver_dispatch_order_witness :
    resolveMediaSource noBackends "ftp://example.com/video.mp4"
      = runStrategy noBackends "ftp://example.com/video.mp4"
          (strategyOf noBackends.fileExists "ftp://example.com/video.mp4")
    ∧ (strategyOf noBackends.fileExists "ftp://example.com/video.mp4"
        = Strategy.directUrl → isValidUrl "ftp://example.com/video.mp4" = true)
    ∧ resolveDirectUrlSource noBackends "ftp://example.com/video.mp4"
      = { url := "ftp://example.com/video.mp4"
          title := fallbackDirectUrlTitle "ftp://example.com/video.mp4"
          type := MediaType.url } := by
  have h := resolver_dispatch_order noBackends "ftp://example.com/video.mp4"
  exact ⟨h.1, h.2.1, h.2.2 "network down" (by rfl)⟩

/-- Helper: when the playing guard passes and the in-flight guard does
not reject, a skip ends in the empty-queue transition or hands off the
next item — never in the rejection. -/
theorem skipCurrent_cases (st : OrchState) (hp : st.status.playing = true)
    (hg : ¬(st.isSkipping = true ∧ ¬(st.queue.getLength ≤ 1))) :
    (skipCurrent st).2.2 = SkipResult.queueEmpty ∨
    ∃ item, (skipCurrent st).2.2 = SkipResult.playingNext item := by
  unfold skipCurrent
  rw [if_neg (by simp [hp]), if_neg hg]
  dsimp only [QueueState.skip, QueueState.getNext]
  split
  · left; rfl
  · right; exact ⟨_, rfl⟩

/-- C1: a skip issued while another skip is in flight is rejected with a
notification and changes nothing — except when the queue holds at most
one item, in which case it proceeds; and a double skip on a one-item
queue settles with exactly one transition to the empty-queue state (the
first empties the queue and stops playback, the second is rejected as
nothing is playing). -/
theorem skip_concurrency_guard :
    (∀ st : OrchState, st.status.playing = true → st.isSkipping = true →
      1 < st.queue.getLength →
      skipCurrent st = (st, [Event.sentError "Skip already in progress."],
        SkipResult.alreadySkipping))
    ∧ (∀ st : OrchState, st.status.playing = true → st.isSkipping = true →
      st.queue.getLength ≤ 1 →
      (skipCurrent st).2.2 ≠ SkipResult.alreadySkipping)
    ∧ (∀ (st : OrchState) (a : QueueItem), st.status.playing = true →
      st.queue.items = [a] → st.queue.currentIndex = 0 →
      (skipCurrent st).2.2 = SkipResult.queueEmpty ∧
      (skipCurrent (skipCurrent st).1).2.2 = SkipResult.notPlaying) := by
  refine ⟨?_, ?_, ?_⟩
  · intro st hp hs hl
    unfold skipCurrent
    rw [if_neg (by simp [hp])]
    rw [if_pos ⟨hs, Nat.not_le.mpr hl⟩]
  · intro st hp hs hl
    rcases skipCurrent_cases st hp (by intro hc; exact hc.2 hl) with h | ⟨item, h⟩ <;>
      simp [h]
  · intro st a hp hitems hci
    obtain ⟨⟨items, ci, qp, nid⟩, ⟨j, js, pl, ms, chi⟩, sk, fv, ctl, ltp, ytd, stt⟩ := st
    dsimp only at hp hitems hci
    subst hitems hci hp
    cases ytd <;>
      simp [skipCurrent, QueueState.skip, QueueState.getNext, QueueState.getLength,
        QueueState.getCurrent, QueueState.setPlaying, QueueState.isEmpty,
        cleanupStreamStatus]

/-- C1 witness: the three guard behaviours at concrete states — a second
skip rejected on a two-item queue, allowed through on a one-item queue,
and a sequential double skip on a one-item queue yielding exactly one
empty-queue transition. -/
theorem skip_concurrency_guard_witness :
    skipCurrent stTwoSkipping = (stTwoSkipping,
      [Event.sentError "Skip already in progress."], SkipResult.alreadySkipping)
    ∧ (skipCurrent stOneSkipping).2.2 ≠ SkipResult.alreadySkipping
    ∧ ((skipCurrent stOneSkipping).2.2 = SkipResult.queueEmpty ∧
       (skipCurrent (skipCurrent stOneSkipping).1).2.2 = SkipResult.notPlaying) := by
  refine ⟨?_, ?_, ?_⟩
  · exact skip_concurrency_guard.1 stTwoSkipping rfl rfl (by decide)
  · exact skip_concurrency_guard.2.1 stOneSkipping rfl rfl (by decide)
  · exact skip_concurrency_guard.2.2 stOneSkipping itemA rfl rfl rfl

/-- Attaching a download outcome never changes an item's original
input. -/
theorem attachDownload_originalInput (o : DownloadOutcome) (qi : QueueItem) :
    (attachDownload o qi).originalInput = qi.originalInput := by
  cases o <;> rfl

/-- C4: a snapshot saved by the periodic saver while playing and reloaded
within the one-hour freshness window resumes with exactly the saved
entry's original input and the elapsed seconds at save time as the seek
position, and the resume's re-enqueue reconstructs a single-item queue
whose item carries that original input; a snapshot more than one hour old
is discarded with no resume attempt. -/
theorem snapshot_roundtrip (st : OrchState) (cur : QueueItem) (tSave tLoad : Nat)
    (hplay : st.status.playing = true)
    (hcur : st.queue.getCurrent = some cur)
    (hfresh : tLoad - tSave ≤ 3600000) :
    resumeState tLoad (stateSaverTick tSave st) true =
      ResumeAction.resumed (jsOrStr cur.originalInput cur.url) cur.title
        ((tSave - st.startTime) / 1000)
    ∧ (∀ tLate, 3600000 < tLate - tSave →
        resumeState tLate (stateSaverTick tSave st) true = ResumeAction.discardedStale)
    ∧ (∀ env user,
        ((addToQueue env stInitial user
            (jsOrStr cur.originalInput cur.url) none).1.queue.items.length = 1)
        ∧ ∀ qi ∈ (addToQueue env stInitial user
            (jsOrStr cur.originalInput cur.url) none).1.queue.items,
          qi.originalInput = some (jsOrStr cur.originalInput cur.url)) := by
  have hsave : stateSaverTick tSave st = some
      { currentQueueIndex := st.queue.currentIndex
        queue := st.queue.items
        lastActive := tSave
        voiceChannelId := cfgVideoChannelId
        textChannelId := cfgCmdChannelId
        isPlaying := st.status.playing
        videoSource := jsOrStr cur.originalInput cur.url
        timestamp := (tSave - st.startTime) / 1000 } := by
    unfold stateSaverTick saveState
    rw [if_pos hplay, hcur]
  refine ⟨?_, ?_, ?_⟩
  · rw [hsave]
    unfold resumeState
    dsimp only
    rw [if_neg (show ¬3600000 < tLoad - tSave by omega)]
    have hsc : snapshotCurrent
        { currentQueueIndex := st.queue.currentIndex
          queue := st.queue.items
          lastActive := tSave
          voiceChannelId := cfgVideoChannelId
          textChannelId := cfgCmdChannelId
          isPlaying := st.status.playing
          videoSource := jsOrStr cur.originalInput cur.url
          timestamp := (tSave - st.startTime) / 1000 } = some cur := by
      rw [show snapshotCurrent
          { currentQueueIndex := st.queue.currentIndex
            queue := st.queue.items
            lastActive := tSave
            voiceChannelId := cfgVideoChannelId
            textChannelId := cfgCmdChannelId
            isPlaying := st.status.playing
            videoSource := jsOrStr cur.originalInput cur.url
            timestamp := (tSave - st.startTime) / 1000 }
        = st.queue.getCurrent from rfl, hcur]
    simp [hsc]
  · intro tLate hlate
    rw [hsave]
    unfold resumeState
    dsimp only
    rw [if_pos hlate]
  · intro env user
    cases hres : resolveMediaSource env.backends (jsOrStr cur.originalInput cur.url) with
    | none =>
      constructor
      · simp [addToQueue, hres, QueueState.add, stInitial, QueueState.initial]
      · intro qi hqi
        simp [addToQueue, hres, QueueState.add, stInitial, QueueState.initial] at hqi
        rw [hqi]
    | some ms =>
      by_cases hyt : ms.type = MediaType.youtube ∧ ms.isLive = false
      · constructor
        · simp [addToQueue, hres, QueueState.addItem, hyt, startBackgroundDownload,
            stInitial, QueueState.initial]
        · intro qi hqi
          simp [addToQueue, hres, QueueState.addItem, hyt, startBackgroundDownload,
            stInitial, QueueState.initial] at hqi
          rw [hqi, attachDownload_originalInput]
      · constructor
        · simp [addToQueue, hres, QueueState.addItem, hyt, stInitial, QueueState.initial]
        · intro qi hqi
          simp [addToQueue, hres, QueueState.addItem, hyt, stInitial,
            QueueState.initial] at hqi
          rw [hqi]

/-- C4 witness: the round trip at a concrete playing state, a fresh load
one hour minus a tick later, a stale load afterwards, and a concrete
re-enqueue. -/
theorem snapshot_roundtrip_witness :
    resumeState 3600000 (stateSaverTick 5000 stOneSkipping) true =
      ResumeAction.resumed (jsOrStr itemA.originalInput itemA.url) itemA.title
        ((5000 - stOneSkipping.startTime) / 1000)
    ∧ resumeState 7300000 (stateSaverTick 5000 stOneSkipping) true
        = ResumeAction.discardedStale
    ∧ ((addToQueue baseEnv stInitial "user"
          (jsOrStr itemA.originalInput itemA.url) none).1.queue.items.length = 1)
    ∧ ∀ qi ∈ (addToQueue baseEnv stInitial "user"
          (jsOrStr itemA.originalInput itemA.url) none).1.queue.items,
        qi.originalInput = some (jsOrStr itemA.originalInput itemA.url) := by
  have h := snapshot_roundtrip stOneSkipping itemA 5000 3600000 rfl rfl
    (by decide)
  exact ⟨h.1, h.2.1 7300000 (by decide), (h.2.2 baseEnv "user").1,
    (h.2.2 baseEnv "user").2⟩

/-- Cleanup always clears the playing flag and touches neither the queue
nor the failed-video set. -/
theorem cleanupStreamStatus_spec (st : OrchState) :
    (cleanupStreamStatus st).1.status.playing = false
    ∧ (cleanupStreamStatus st).1.queue = st.queue
    ∧ (cleanupStreamStatus st).1.failedVideos = st.failedVideos := by
  unfold cleanupStreamStatus
  dsimp only
  split <;> split <;> exact ⟨rfl, rfl, rfl⟩

/-- A `getNext` that reports exhaustion leaves the queue unchanged. -/
theorem QueueState.getNext_none (qs q : QueueState) (h : qs.getNext = (q, none)) :
    q = qs := by
  unfold QueueState.getNext at h
  dsimp only at h
  split at h
  · exact absurd (congrArg Prod.snd h) (by simp)
  · exact (congrArg Prod.fst h).symm

/-- Queue advancement either schedules exactly the item after the current
one or stops playback, and never touches the failed-video set. -/
theorem handleQueueAdvancement_spec (st : OrchState) :
    advancesOrIdles st.queue (handleQueueAdvancement st).1 (handleQueueAdvancement st).2
    ∧ (handleQueueAdvancement st).1.failedVideos = st.failedVideos := by
  unfold handleQueueAdvancement advancesOrIdles advancementNext
  cases hc : st.queue.getCurrent with
  | none =>
    dsimp only
    rcases hn : st.queue.getNext with ⟨q, nxt⟩
    dsimp only
    cases nxt with
    | some item => exact ⟨by simp, rfl⟩
    | none =>
      have hcl := cleanupStreamStatus_spec
        { st with queue := q.setPlaying false }
      refine ⟨⟨hcl.1, ?_⟩, hcl.2.2⟩
      rw [hcl.2.1]
      rfl
  | some fin =>
    dsimp only
    rcases hn : (st.queue.removeFromQueue fin.id).getNext with ⟨q, nxt⟩
    dsimp only
    cases nxt with
    | some item => exact ⟨by simp, rfl⟩
    | none =>
      have hcl := cleanupStreamStatus_spec
        { st with queue := q.setPlaying false }
      refine ⟨⟨hcl.1, ?_⟩, hcl.2.2⟩
      rw [hcl.2.1]
      rfl

/-- Added sources are members of the failed-video set. -/
theorem insertFailed_mem (v : String) (l : List String) : v ∈ insertFailed v l := by
  unfold insertFailed
  split
  · assumption
  · exact List.mem_cons_self v l

/-- The catch block of `playVideo`, entered with no deliberate stop in
force: the error is reported, the source joins the failed set, and the
queue advances or playback stops cleanly. -/
theorem playVideoCatch_spec (st : OrchState) (e videoSource : String)
    (qPre : QueueState)
    (hm : st.status.manualStop = false) (hq : st.queue = qPre) :
    handleErrorEvent e ∈ (playVideoCatch st e videoSource).2
    ∧ videoSource ∈ (playVideoCatch st e videoSource).1.failedVideos
    ∧ advancesOrIdles qPre (playVideoCatch st e videoSource).1
        (playVideoCatch st e videoSource).2 := by
  subst hq
  unfold playVideoCatch markVideoAsFailed
  dsimp only
  rw [hm]
  rw [if_neg (by simp)]
  have hadv := handleQueueAdvancement_spec
    { st with failedVideos := insertFailed videoSource st.failedVideos }
  refine ⟨by simp, ?_, ?_⟩
  · rw [hadv.2]
    exact insertFailed_mem videoSource st.failedVideos
  · have h1 := hadv.1
    unfold advancesOrIdles at h1 ⊢
    cases hnext : advancementNext st.queue with
    | some n =>
      rw [hnext] at h1
      exact List.mem_append_right _ h1
    | none =>
      rw [hnext] at h1
      exact h1

/-- The catch block with `manualStop` in force only reports and marks. -/
theorem playVideoCatch_manualStop (st : OrchState) (e videoSource : String)
    (hm : st.status.manualStop = true) :
    playVideoCatch st e videoSource =
      (markVideoAsFailed st videoSource, [handleErrorEvent e]) := by
  unfold playVideoCatch markVideoAsFailed
  dsimp only
  rw [hm]
  rw [if_pos rfl]

/-- Shows `ensureVoiceConnection` succeeds when joining works and the
connection is up afterwards. -/
theorem ensureVoiceConnection_ok (env : Env) (st : OrchState) (g c cc : String)
    (h1 : env.joinOk = true) (h2 : env.voiceConnAfter = true) :
    (ensureVoiceConnection env st g c cc).2 = Except.ok () := by
  unfold ensureVoiceConnection
  dsimp only
  split_ifs with ha hb hc hd <;> simp_all

/-- Shows `ensureVoiceConnection` touches neither the queue, the failed set,
the skip lock, nor the `manualStop` flag. -/
theorem ensureVoiceConnection_preserves (env : Env) (st : OrchState) (g c cc : String) :
    (ensureVoiceConnection env st g c cc).1.queue = st.queue
    ∧ (ensureVoiceConnection env st g c cc).1.status.manualStop = st.status.manualStop
    ∧ (ensureVoiceConnection env st g c cc).1.failedVideos = st.failedVideos := by
  unfold ensureVoiceConnection
  dsimp only
  split_ifs <;> exact ⟨rfl, rfl, rfl⟩

/-- The prepared result does not depend on the orchestrator state. -/
theorem prepareVideoSource_result_const (env : Env) (st st' : OrchState)
    (v : String) (hdrs : Option Headers) (qi : Option QueueItem) :
    (prepareVideoSource env st v hdrs qi).2 = (prepareVideoSource env st' v hdrs qi).2 := by
  unfold prepareVideoSource
  dsimp only
  repeat' split
  all_goals simp_all

/-- Preparing a source touches neither the queue, the status record, nor
the failed set (it can only mark the yt-dlp pipe live). -/
theorem prepareVideoSource_preserves (env : Env) (st : OrchState)
    (v : String) (hdrs : Option Headers) (qi : Option QueueItem) :
    (prepareVideoSource env st v hdrs qi).1.queue = st.queue
    ∧ (prepareVideoSource env st v hdrs qi).1.status = st.status
    ∧ (prepareVideoSource env st v hdrs qi).1.failedVideos = st.failedVideos := by
  unfold prepareVideoSource
  dsimp only
  repeat' split
  all_goals exact ⟨rfl, rfl, rfl⟩

/-- Shows `ensureVoiceConnection` fails fast when the sink cannot be joined. -/
theorem ensureVoiceConnection_join_fail (env : Env) (st : OrchState)
    (g c cc : String)
    (hjoin : env.joinOk = false) (hjoined : st.status.joined = false) :
    ensureVoiceConnection env st g c cc =
      ({ st with leaveTimeoutPending := false }, Except.error "joinVoice failed") := by
  unfold ensureVoiceConnection
  dsimp only
  rw [if_pos (Or.inl hjoined), if_pos hjoin]

/-- Preservation of the queue by `ensureVoiceConnection`, as a rewrite rule. -/
theorem ensureVoiceConnection_queue (env : Env) (s : OrchState) (g c cc : String) :
    (ensureVoiceConnection env s g c cc).1.queue = s.queue :=
  (ensureVoiceConnection_preserves env s g c cc).1

/-- Preservation of `manualStop` by `ensureVoiceConnection`. -/
theorem ensureVoiceConnection_manualStop (env : Env) (s : OrchState) (g c cc : String) :
    (ensureVoiceConnection env s g c cc).1.status.manualStop = s.status.manualStop :=
  (ensureVoiceConnection_preserves env s g c cc).2.1

/-- Preservation of the queue by `prepareVideoSource`, as a rewrite rule. -/
theorem prepareVideoSource_queue (env : Env) (s : OrchState) (v : String)
    (hdrs : Option Headers) (qi : Option QueueItem) :
    (prepareVideoSource env s v hdrs qi).1.queue = s.queue :=
  (prepareVideoSource_preserves env s v hdrs qi).1

/-- Preservation of the status record by `prepareVideoSource`, as a rewrite rule. -/
theorem prepareVideoSource_status (env : Env) (s : OrchState) (v : String)
    (hdrs : Option Headers) (qi : Option QueueItem) :
    (prepareVideoSource env s v hdrs qi).1.status = s.status :=
  (prepareVideoSource_preserves env s v hdrs qi).2.1

/-- Growing the event list on the left preserves advance-or-idle. -/
theorem advancesOrIdles_append_left (q : QueueState) (st : OrchState)
    (evs1 evs2 : List Event) (h : advancesOrIdles q st evs2) :
    advancesOrIdles q st (evs1 ++ evs2) := by
  unfold advancesOrIdles at h ⊢
  cases hn : advancementNext q with
  | some n => rw [hn] at h; exact List.mem_append_right _ h
  | none => rw [hn] at h; exact h

/-- C2 counterexample: with a two-item queue and a failing sink join, the
error is reported and the source marked failed, but — contrary to the
claim — the current item is removed and the next one is scheduled: the
queue cursor does advance. -/
theorem connection_failure_advances_counterexample :
    (playVideo cexEnvJoinFail 0 stPlayTwo "srcA" none none none none).1.queue.items
      = [itemB]
    ∧ Event.scheduledAutoPlay itemB
        ∈ (playVideo cexEnvJoinFail 0 stPlayTwo "srcA" none none none none).2
    ∧ handleErrorEvent "joinVoice failed"
        ∈ (playVideo cexEnvJoinFail 0 stPlayTwo "srcA" none none none none).2
    ∧ "srcA" ∈ (playVideo cexEnvJoinFail 0 stPlayTwo "srcA" none none none none).1.failedVideos := by
  refine ⟨by decide, by decide, by decide, by decide⟩

/-- C2 as amended: a failure to establish the sink connection is reported
to the caller and the source is marked failed, but it is handled like
every other playback error — unless a deliberate stop is in force the
orchestrator removes the current item and schedules the next one,
returning to Idle only when no next item exists. -/
theorem connection_failure_reported_and_advances (env : Env) (st : OrchState)
    (now : Nat) (videoSource : String) (headers : Option Headers)
    (queueItem : Option QueueItem) (seek : Option Nat)
    (hjoin : env.joinOk = false) (hjoined : st.status.joined = false) :
    handleErrorEvent "joinVoice failed"
      ∈ (playVideo env now st videoSource none headers queueItem seek).2
    ∧ videoSource
      ∈ (playVideo env now st videoSource none headers queueItem seek).1.failedVideos
    ∧ advancesOrIdles st.queue
        (playVideo env now st videoSource none headers queueItem seek).1
        (playVideo env now st videoSource none headers queueItem seek).2 := by
  unfold playVideo
  dsimp only
  rw [ensureVoiceConnection_join_fail env
    { st with
      status := { st.status with manualStop := false }
      leaveTimeoutPending := false }
    cfgGuildId cfgVideoChannelId cfgCmdChannelId hjoin hjoined]
  dsimp only
  exact playVideoCatch_spec _ "joinVoice failed" videoSource st.queue rfl rfl

/-- C2 amended-claim witness: the amended behaviour at a concrete failing
join with a two-item queue. -/
theorem connection_failure_reported_and_advances_witness :
    handleErrorEvent "joinVoice failed"
      ∈ (playVideo cexEnvJoinFail 7 stPlayTwo "srcA" none none none none).2
    ∧ "srcA" ∈ (playVideo cexEnvJoinFail 7 stPlayTwo "srcA" none none none none).1.failedVideos
    ∧ advancesOrIdles stPlayTwo.queue
        (playVideo cexEnvJoinFail 7 stPlayTwo "srcA" none none none none).1
        (playVideo cexEnvJoinFail 7 stPlayTwo "srcA" none none none none).2 :=
  connection_failure_reported_and_advances cexEnvJoinFail stPlayTwo 7 "srcA"
    none none none rfl rfl

/-- The catch block always reports the error, whatever the stop flag. -/
theorem playVideoCatch_mem_error (st : OrchState) (e v : String) :
    handleErrorEvent e ∈ (playVideoCatch st e v).2 := by
  unfold playVideoCatch
  dsimp only
  split
  · simp
  · simp

/-- The catch block always adds the source to the failed set, whatever
the stop flag. -/
theorem playVideoCatch_mem_failed (st : OrchState) (e v : String) :
    v ∈ (playVideoCatch st e v).1.failedVideos := by
  unfold playVideoCatch markVideoAsFailed
  dsimp only
  split
  · exact insertFailed_mem v st.failedVideos
  · rw [show ∀ s, (handleQueueAdvancement s).1.failedVideos = s.failedVideos from
      fun s => (handleQueueAdvancement_spec s).2]
    exact insertFailed_mem v st.failedVideos

/-- C3: every error raised while preparing or streaming a queue item adds
the offending source to the failed set and reports it, and — unless a
concurrent skip/stop set `manualStop` — the orchestrator advances to and
schedules the next queue item, or returns cleanly to Idle when none
exists, so one failed item never stalls the remaining queue. -/
theorem error_marks_failed_and_advances (env : Env) (st : OrchState) (now : Nat)
    (videoSource : String) (headers : Option Headers) (queueItem : Option QueueItem)
    (seek : Option Nat)
    (hjoin : env.joinOk = true) (hconn : env.voiceConnAfter = true) :
    (∀ e, (prepareVideoSource env st videoSource headers queueItem).2 = Except.error e →
      handleErrorEvent e ∈ (playVideo env now st videoSource none headers queueItem seek).2
      ∧ videoSource
        ∈ (playVideo env now st videoSource none headers queueItem seek).1.failedVideos
      ∧ advancesOrIdles st.queue
          (playVideo env now st videoSource none headers queueItem seek).1
          (playVideo env now st videoSource none headers queueItem seek).2)
    ∧ (∀ e r, (prepareVideoSource env st videoSource headers queueItem).2 = Except.ok r →
      env.streamResult = Except.error e →
      handleErrorEvent e ∈ (playVideo env now st videoSource none headers queueItem seek).2
      ∧ videoSource
        ∈ (playVideo env now st videoSource none headers queueItem seek).1.failedVideos
      ∧ (env.manualStopDuringStream = false →
        advancesOrIdles st.queue
          (playVideo env now st videoSource none headers queueItem seek).1
          (playVideo env now st videoSource none headers queueItem seek).2)) := by
  constructor
  · intro e hperr
    unfold playVideo
    dsimp only
    rw [ensureVoiceConnection_ok env _ cfgGuildId cfgVideoChannelId cfgCmdChannelId
      hjoin hconn]
    dsimp only
    rw [prepareVideoSource_result_const env _ st videoSource headers queueItem, hperr]
    dsimp only
    exact playVideoCatch_spec _ e videoSource st.queue
      (by rw [prepareVideoSource_status, ensureVoiceConnection_manualStop])
      (by rw [prepareVideoSource_queue, ensureVoiceConnection_queue])
  · intro e r hpok hstream
    unfold playVideo
    dsimp only
    rw [ensureVoiceConnection_ok env _ cfgGuildId cfgVideoChannelId cfgCmdChannelId
      hjoin hconn]
    dsimp only
    rw [prepareVideoSource_result_const env _ st videoSource headers queueItem, hpok]
    dsimp only
    rw [hstream]
    dsimp only
    refine ⟨List.mem_append_right _ (playVideoCatch_mem_error _ e videoSource),
      playVideoCatch_mem_failed _ e videoSource, ?_⟩
    intro hms
    refine advancesOrIdles_append_left st.queue _ _ _ ?_
    exact (playVideoCatch_spec _ e videoSource st.queue hms
      (by dsimp only; rw [prepareVideoSource_queue, ensureVoiceConnection_queue])).2.2

/-- C3 witness: a failed synchronous download (preparation error) and a
mid-stream pipeline error at concrete inputs, both marking the source
failed and advancing past it. -/
theorem error_marks_failed_and_advances_witness :
    (handleErrorEvent "Failed to prepare video source due to download failure."
        ∈ (playVideo envPrepFail 7 stPlayTwo "https://youtube.com/watch?v=abc"
            none none none none).2
      ∧ "https://youtube.com/watch?v=abc"
        ∈ (playVideo envPrepFail 7 stPlayTwo "https://youtube.com/watch?v=abc"
            none none none none).1.failedVideos
      ∧ advancesOrIdles stPlayTwo.queue
          (playVideo envPrepFail 7 stPlayTwo "https://youtube.com/watch?v=abc"
            none none none none).1
          (playVideo envPrepFail 7 stPlayTwo "https://youtube.com/watch?v=abc"
            none none none none).2)
    ∧ (handleErrorEvent "ffmpeg exited"
        ∈ (playVideo envStreamFail 7 stPlayTwo "https://a.example/v.mp4"
            none none none none).2
      ∧ "https://a.example/v.mp4"
        ∈ (playVideo envStreamFail 7 stPlayTwo "https://a.example/v.mp4"
            none none none none).1.failedVideos
      ∧ advancesOrIdles stPlayTwo.queue
          (playVideo envStreamFail 7 stPlayTwo "https://a.example/v.mp4"
            none none none none).1
          (playVideo envStreamFail 7 stPlayTwo "https://a.example/v.mp4"
            none none none none).2) := by
  constructor
  · exact (error_marks_failed_and_advances envPrepFail stPlayTwo 7
      "https://youtube.com/watch?v=abc" none none none rfl rfl).1
      "Failed to prepare video source due to download failure." (by rfl)
  · have h := (error_marks_failed_and_advances envStreamFail stPlayTwo 7
      "https://a.example/v.mp4" none none none rfl rfl).2
      "ffmpeg exited"
      ⟨FfmpegInput.urlInput "https://a.example/v.mp4", none, none⟩
      (by rfl) rfl
    exact ⟨h.1, h.2.1, h.2.2 rfl⟩

end StreamBot
